import Mathlib

/-!
Shallow embedding of the erh/viam-chess module: the board-occupancy
classifier (`estimatePieceColor`), the grasp verifier (`myGrab`), the
pick-and-place executor (`movePiece` with its grasp-retry loop), the
coordinate resolver (`getCenterFor`), game persistence (`getGame` /
`saveGame`), move selection (`pickMove`), and the command dispatcher
(`DoCommand`).  Machine floats of the Go source are modelled as rationals;
external drivers (arm, gripper, camera, chess engine, file system) are
modelled as explicit environments/oracles.
-/

namespace ViamChess

/-! ## Point clouds and the occupancy classifier (piece_finder) -/

/-- Color payload attached to a point: `HasColor` flag and RGB255 channels. -/
structure PCData where
  hasColor : Bool
  r : ℕ
  g : ℕ
  b : ℕ
deriving DecidableEq, Repr

/-- One point of a cloud: height `z` and optional data payload
(`d = none` models a nil `pointcloud.Data`). -/
structure PCPoint where
  z : ℚ
  d : Option PCData
deriving DecidableEq, Repr

/-- A point cloud: the list of its points. -/
structure PointCloud where
  points : List PCPoint
deriving DecidableEq, Repr

/-- `MetaData().MaxZ` of the cloud: the maximum `z` over its points
(`0` for the empty cloud, which the classifier never consults since the
empty cloud has no qualifying points). -/
def PointCloud.maxZ (pc : PointCloud) : ℚ :=
  match pc.points with
  | [] => 0
  | p :: ps => ps.foldl (fun acc q => max acc q.z) p.z

/-- `minPieceSize` constant of the source. -/
def minPieceSize : ℚ := 20

/-- The filter of `estimatePieceColor`'s iteration body:
`p.Z < minZ && d != nil && d.HasColor()`. -/
def qualifiesAt (minZ : ℚ) (p : PCPoint) : Bool :=
  decide (p.z < minZ) && (match p.d with
    | none => false
    | some d => d.hasColor)

/-- Accumulator of the iteration: running totals and count. -/
structure ColorAcc where
  totalR : ℚ
  totalG : ℚ
  totalB : ℚ
  count : ℕ
deriving DecidableEq, Repr

/-- One step of `pc.Iterate`: accumulate the RGB channels of a qualifying
point. -/
def colorStep (minZ : ℚ) (acc : ColorAcc) (p : PCPoint) : ColorAcc :=
  if qualifiesAt minZ p then
    match p.d with
    | none => acc
    | some d =>
        ⟨acc.totalR + d.r, acc.totalG + d.g, acc.totalB + d.b, acc.count + 1⟩
  else acc

/-- Classify from accumulated totals: `0` blank when `count ≤ 10`,
else `1` white when the mean brightness is `> 128`, else `2` black. -/
def classifyAcc (acc : ColorAcc) : ℕ :=
  if acc.count ≤ 10 then 0
  else
    let avgR := acc.totalR / acc.count
    let avgG := acc.totalG / acc.count
    let avgB := acc.totalB / acc.count
    let brightness := (avgR + avgG + avgB) / 3
    if brightness > 128 then 1 else 2

/-- `estimatePieceColor` of the source: single pass over the cloud with
threshold `minZ = MaxZ - minPieceSize`, then classification of the totals. -/
def estimatePieceColor (pc : PointCloud) : ℕ :=
  let minZ := pc.maxZ - minPieceSize
  classifyAcc (pc.points.foldl (colorStep minZ) ⟨0, 0, 0, 0⟩)

/-- The qualifying points of a cloud, as a filtered list. -/
def lowColoredPoints (pc : PointCloud) : List PCPoint :=
  pc.points.filter (qualifiesAt (pc.maxZ - minPieceSize))

/-- Sum of a channel over a point list (`0` for a colorless point,
which never occurs among qualifying points). -/
def channelSum (f : PCData → ℕ) (l : List PCPoint) : ℚ :=
  (l.map (fun p => match p.d with
    | none => (0 : ℚ)
    | some d => (f d : ℚ))).sum

/-- Classification computed from an explicit point list: count the points,
average the channels, threshold the mean brightness. -/
def classifyList (l : List PCPoint) : ℕ :=
  classifyAcc ⟨channelSum (fun d => d.r) l,
               channelSum (fun d => d.g) l,
               channelSum (fun d => d.b) l,
               l.length⟩

/-- Number of qualifying points of a cloud. -/
def qualCount (pc : PointCloud) : ℕ := (lowColoredPoints pc).length

/-- Mean brightness over the qualifying points of a cloud. -/
def meanBrightness (pc : PointCloud) : ℚ :=
  let l := lowColoredPoints pc
  (channelSum (fun d => d.r) l / l.length
    + channelSum (fun d => d.g) l / l.length
    + channelSum (fun d => d.b) l / l.length) / 3

/-- The classifier exactly as the C1 sentence of the spec words it: keep
points whose height lies within the 20-unit band below the maximum height
(`maxZ - 20 ≤ z`) and that carry valid color samples, then classify the
same way. -/
def estimatePieceColorBand (pc : PointCloud) : ℕ :=
  let l := pc.points.filter (fun p =>
    decide (pc.maxZ - minPieceSize ≤ p.z) && (match p.d with
      | none => false
      | some d => d.hasColor))
  classifyList l

/-! ## The grasp verifier `myGrab` -/

/-- Errors that `myGrab` can surface. -/
inductive GrabErr where
  | gripperErr
  | armErr
  | weirdRes
deriving DecidableEq, Repr

/-- The sensor/driver readings one `myGrab` call consumes:
the `gripper.Grab` result and the `get_gripper` arm query result
(`none` models a response without a float `gripper_position`). -/
structure GrabEnv where
  grabResult : Except Unit Bool
  armResult : Except Unit (Option ℚ)
deriving Repr

/-- `myGrab` of the source: grab, read back the aperture, and report a
failed grasp when the driver claimed success but the aperture reads
below 20. -/
def myGrab (e : GrabEnv) : Except GrabErr Bool :=
  match e.grabResult with
  | .error _ => .error .gripperErr
  | .ok got =>
    match e.armResult with
    | .error _ => .error .armErr
    | .ok none => .error .weirdRes
    | .ok (some p) =>
        if p < 20 ∧ got then .ok false
        else .ok got

/-- Acceptance exactly as the C4 claim words it: the grasp call reports
success AND the measured aperture EXCEEDS the 20-unit threshold. -/
def myGrabClaimAccept (e : GrabEnv) : Prop :=
  e.grabResult = .ok true ∧ ∃ p, e.armResult = .ok (some p) ∧ 20 < p

/-! ## Geometry, captures, and the coordinate resolver -/

/-- A 3D vector (`r3.Vector`) over rationals. -/
structure V3 where
  x : ℚ
  y : ℚ
  z : ℚ
deriving DecidableEq, Repr

/-- `safeZ` constant of the source: the safe transit height. -/
def safeZ : ℚ := 200

/-- One vision object of a capture: its geometry label, its metadata
center, and the highest point of its region as returned by
`touch.PCFindHighestInRegion` (external library, modelled as data). -/
structure Obj where
  label : String
  center : V3
  high : V3
deriving DecidableEq, Repr

/-- A `viscapture.VisCapture` restricted to what the executor consumes:
its object list. -/
structure Capture where
  objects : List Obj
deriving DecidableEq, Repr

/-- `strings.HasPrefix`, over the character lists of the strings. -/
def strHasPre (s p : String) : Bool :=
  decide (s.data.take p.data.length = p.data)

/-- `strings.HasSuffix`, over the character lists of the strings. -/
def strHasSuf (s p : String) : Bool :=
  decide (s.data.drop (s.data.length - p.data.length) = p.data)

/-- `findObject`: the first object whose label has `pos` as a prefix. -/
def findObject (data : Capture) (pos : String) : Option Obj :=
  data.objects.find? (fun o => strHasPre o.label pos)

/-- `getCenterFor`: the discard sentinel maps to a fixed point; an empty
square (label suffix `"-0"`) maps to its center; an occupied square maps
to the blend of center and highest point. -/
def getCenterFor (data : Capture) (pos : String) : Except String V3 :=
  if pos = "-" then .ok ⟨400, -400, 400⟩
  else
    match findObject data pos with
    | none => .error ("cant find object for: " ++ pos)
    | some o =>
      if strHasSuf o.label "-0" then .ok o.center
      else .ok ⟨(o.center.x + o.high.x) / 2, (o.center.y + o.high.y) / 2,
                o.high.z⟩

/-! ## Games, moves, persistence inputs -/

/-- A chess game, identified by its position (FEN text).  The chess
library is external; the game operations the module uses are oracles of
the environment. -/
structure Game where
  fen : String
deriving DecidableEq, Repr

/-- The canonical starting position (`chess.NewGame()`). -/
def startGame : Game :=
  ⟨"rnbqkbnr/pppppppp/8/8/8/8/PPPPPPPP/RNBQKBNR w KQkq - 0 1"⟩

/-- Move tags; the executor only ever inspects the two castle tags. -/
inductive MoveTag where
  | kingSideCastle
  | queenSideCastle
  | otherTag
deriving DecidableEq, Repr

/-- A chess move: its two squares and its tags. -/
structure Move where
  s1 : String
  s2 : String
  tags : List MoveTag
deriving DecidableEq, Repr

/-- `m.HasTag(t)`. -/
def Move.hasTag (m : Move) (t : MoveTag) : Bool := m.tags.contains t

/-- State of the persisted FEN file. -/
inductive FileSt where
  | missing
  | readErr
  | content (s : String)
deriving DecidableEq, Repr

/-! ## The driver environment

All external collaborators are modelled as oracles.  `prim` is a tick
stream of success flags consumed, one tick per call, by every
motion/switch/gripper-open/pose primitive; `grab` is a stream of sensor
readings consumed, one per grasp attempt, by `myGrab`; `capture` is a
stream of camera captures; the remaining fields model the chess library
and engine. -/
structure Env where
  prim : ℕ → Bool
  grab : ℕ → GrabEnv
  capture : ℕ → Option Capture
  hasEngine : Bool
  pick : Game → Option Move
  validMoves : Game → List Move
  applyMove : Game → Move → Option Game
  fenParse : String → Option Game

/-- The observable events the embedding records. -/
inductive Ev where
  | subCall (fromSq toSq : String)
  | setup
  | moveArm (p : V3)
  | grab
  | setPosition
  | gripperOpen
  | getPose
  | fileRead
  | fileWrite
  | enginePick
  | capture
deriving DecidableEq, Repr

/-! ## The grasp-retry loop of `movePiece`

The Go loop is unbounded (`for {}`); it is embedded with a fuel
parameter, and `grabLoopFuel_isSome` below proves that the fuel the
executor passes (`fuelFor useZ`) is never exhausted, so the `none`
branches are dead. -/

/-- Fuel that suffices for the retry loop started at height `z` (the
loop runs at most `⌊z/10⌋ + 1 ≤ ⌊z⌋ + 1` iterations). -/
def fuelFor (z : ℚ) : ℕ := (⌊z⌋).toNat + 1

/-- The retry loop: descend to `useZ`, attempt a grasp through `myGrab`,
and on a failed grasp lower the target by 10, aborting at the floor.
Returns the trace, the next prim tick, the next grab index, and either
the height at which the grasp succeeded or the error. -/
def grabLoopFuel (env : Env) (x y : ℚ) :
    ℕ → ℚ → ℕ → ℕ → Option (List Ev × ℕ × ℕ × Except String ℚ)
  | 0, _, _, _ => none
  | fuel + 1, useZ, n, g =>
    if env.prim n = false then
      some ([.moveArm ⟨x, y, useZ⟩], n + 1, g, .error "cant move to grab")
    else
      match myGrab (env.grab g) with
      | .error _ =>
          some ([.moveArm ⟨x, y, useZ⟩, .grab], n + 1, g + 1,
                .error "grab failed")
      | .ok true =>
          some ([.moveArm ⟨x, y, useZ⟩, .grab], n + 1, g + 1, .ok useZ)
      | .ok false =>
          if useZ - 10 < 0 then
            some ([.moveArm ⟨x, y, useZ⟩, .grab], n + 1, g + 1,
                  .error "couldnt grab, and scared to go lower")
          else if env.prim (n + 1) = false then
            some ([.moveArm ⟨x, y, useZ⟩, .grab, .setup], n + 2, g + 1,
                  .error "cant setup gripper")
          else
            match grabLoopFuel env x y fuel (useZ - 10) (n + 2) (g + 1) with
            | none => none
            | some (t, n', g', r) =>
                some (.moveArm ⟨x, y, useZ⟩ :: .grab :: .setup :: t, n', g', r)

/-- The loop as the executor runs it, with its sufficient fuel. -/
def grabLoop (env : Env) (x y z : ℚ) (n g : ℕ) :
    Option (List Ev × ℕ × ℕ × Except String ℚ) :=
  grabLoopFuel env x y (fuelFor z) z n g

/-- The heights of the descend commands recorded in a trace. -/
def descendHeights (t : List Ev) : List ℚ :=
  t.filterMap (fun e => match e with
    | .moveArm p => some p.z
    | _ => none)

/-- Number of grasp attempts recorded in a trace. -/
def grabCount (t : List Ev) : ℕ :=
  t.countP (fun e => e = Ev.grab)

/-- Number of displacement sub-calls recorded in a trace. -/
def subCount (t : List Ev) : ℕ :=
  t.countP (fun e => match e with
    | .subCall _ _ => true
    | _ => false)

/-! ## `movePiece` -/

/-- The pick-then-place sequence of `movePiece` (everything after the
displacement check): resolve `from`, open the gripper, transit at `safeZ`,
run the grasp-retry loop, ascend, then resolve `to`, transit, descend
(to height 300 for the discard sentinel, else to the grasp height),
release, and ascend. -/
def movePieceMain (env : Env) (data : Capture) (fromP toP : String)
    (n g : ℕ) : Option (List Ev × ℕ × ℕ × Except String Unit) :=
  match getCenterFor data fromP with
  | .error e => some ([], n, g, .error e)
  | .ok c =>
    if env.prim n = false then
      some ([.setup], n + 1, g, .error "cant setup gripper")
    else if env.prim (n + 1) = false then
      some ([.setup, .moveArm ⟨c.x, c.y, safeZ⟩], n + 2, g, .error "cant move")
    else
      match grabLoop env c.x c.y c.z (n + 2) g with
      | none => none
      | some (lt, n1, g1, .error e) =>
          some (.setup :: .moveArm ⟨c.x, c.y, safeZ⟩ :: lt, n1, g1, .error e)
      | some (lt, n1, g1, .ok zGrab) =>
        let t1 : List Ev := .setup :: .moveArm ⟨c.x, c.y, safeZ⟩ :: lt
        if env.prim n1 = false then
          some (t1 ++ [.moveArm ⟨c.x, c.y, safeZ⟩], n1 + 1, g1,
                .error "cant move")
        else
          let t2 := t1 ++ [.moveArm ⟨c.x, c.y, safeZ⟩]
          match getCenterFor data toP with
          | .error e => some (t2, n1 + 1, g1, .error e)
          | .ok c2 =>
            if env.prim (n1 + 1) = false then
              some (t2 ++ [.moveArm ⟨c2.x, c2.y, safeZ⟩], n1 + 2, g1,
                    .error "cant move")
            else
              let z2 : ℚ := if toP = "-" then 300 else zGrab
              if env.prim (n1 + 2) = false then
                some (t2 ++ [.moveArm ⟨c2.x, c2.y, safeZ⟩,
                             .moveArm ⟨c2.x, c2.y, z2⟩], n1 + 3, g1,
                      .error "cant move")
              else if env.prim (n1 + 3) = false then
                some (t2 ++ [.moveArm ⟨c2.x, c2.y, safeZ⟩,
                             .moveArm ⟨c2.x, c2.y, z2⟩, .setup], n1 + 4, g1,
                      .error "cant setup gripper")
              else if env.prim (n1 + 4) = false then
                some (t2 ++ [.moveArm ⟨c2.x, c2.y, safeZ⟩,
                             .moveArm ⟨c2.x, c2.y, z2⟩, .setup,
                             .moveArm ⟨c2.x, c2.y, safeZ⟩], n1 + 5, g1,
                      .error "cant move")
              else
                some (t2 ++ [.moveArm ⟨c2.x, c2.y, safeZ⟩,
                             .moveArm ⟨c2.x, c2.y, z2⟩, .setup,
                             .moveArm ⟨c2.x, c2.y, safeZ⟩], n1 + 5, g1,
                      .ok ())

/-- `movePiece` with a recursion-depth fuel.  The Go function recurses on
itself for the displacement sub-move; the sub-call always has destination
`"-"`, so depth 2 suffices (`movePieceF_isSome` below), and the `none`
branches are dead.  A `.subCall` event records each recursive
invocation. -/
def movePieceF (env : Env) (data : Capture) :
    ℕ → String → String → ℕ → ℕ →
    Option (List Ev × ℕ × ℕ × Except String Unit)
  | 0, _, _, _, _ => none
  | fuel + 1, fromP, toP, n, g =>
    if toP = "-" then movePieceMain env data fromP toP n g
    else
      match findObject data toP with
      | none => some ([], n, g, .error ("cant find object for: " ++ toP))
      | some o =>
        if strHasSuf o.label "-0" then movePieceMain env data fromP toP n g
        else
          match movePieceF env data fuel toP "-" n g with
          | none => none
          | some (t1, n1, g1, .error e) =>
              some (.subCall toP "-" :: t1, n1, g1,
                    .error ("cant move piece out of the way: " ++ e))
          | some (t1, n1, g1, .ok _) =>
            match movePieceMain env data fromP toP n1 g1 with
            | none => none
            | some (t2, n2, g2, r) =>
                some (.subCall toP "-" :: t1 ++ t2, n2, g2, r)

/-- `movePiece` as the module calls it. -/
def movePieceGo (env : Env) (data : Capture) (fromP toP : String)
    (n g : ℕ) : Option (List Ev × ℕ × ℕ × Except String Unit) :=
  movePieceF env data 2 fromP toP n g

/-- Trace of a `movePiece` invocation. -/
def mpTrace (env : Env) (data : Capture) (fromP toP : String)
    (n g : ℕ) : List Ev :=
  ((movePieceGo env data fromP toP n g).map (fun x => x.1)).getD []

/-! ## Homing, persistence, move selection -/

/-- `goToStart`: staging-pose switch, gripper open, pose read-back.  Each
primitive consumes one prim tick. -/
def goToStart (env : Env) (n : ℕ) : List Ev × ℕ × Except String Unit :=
  if env.prim n = false then
    ([.setPosition], n + 1, .error "cant set position")
  else if env.prim (n + 1) = false then
    ([.setPosition, .gripperOpen], n + 2, .error "cant open gripper")
  else if env.prim (n + 2) = false then
    ([.setPosition, .gripperOpen, .getPose], n + 3, .error "cant get pose")
  else
    ([.setPosition, .gripperOpen, .getPose], n + 3, .ok ())

/-- `getGame`: read the FEN file; a missing file yields a fresh game, a
read error or an unparseable FEN yields an error. -/
def getGame (env : Env) (fs : FileSt) : List Ev × Except String Game :=
  ([.fileRead],
   match fs with
   | .missing => .ok startGame
   | .readErr => .error "error reading fen"
   | .content s =>
     match env.fenParse s with
     | none => .error ("invalid fen from: " ++ s)
     | some gm => .ok gm)

/-- `saveGame`: write the game's FEN to the file. -/
def saveGame (gm : Game) : List Ev × FileSt :=
  ([.fileWrite], .content gm.fen)

/-- `pickMove`: first legal move when no engine is configured, else the
engine's best move. -/
def pickMove (env : Env) (gm : Game) : List Ev × Except String Move :=
  if env.hasEngine = false then
    match env.validMoves gm with
    | [] => ([], .error "no valid moves")
    | m :: _ => ([], .ok m)
  else
    ([.enginePick],
     match env.pick gm with
     | none => .error "engine failed"
     | some m => .ok m)

/-- Whether a move carries a castle tag, as `makeAMove` tests it. -/
def isCastle (m : Move) : Bool :=
  m.hasTag .kingSideCastle || m.hasTag .queenSideCastle

/-- `makeAMove`: home, load the game, pick a move, reject castling,
capture a snapshot, execute the move, advance and persist the game.
Returns the trace, the next prim tick / grab index / capture index, the
file state, and the move or the error. -/
def makeAMove (env : Env) (n g c : ℕ) (fs : FileSt) :
    List Ev × ℕ × ℕ × ℕ × FileSt × Except String Move :=
  match goToStart env n with
  | (t0, n0, .error e) => (t0, n0, g, c, fs, .error ("cant go home: " ++ e))
  | (t0, n0, .ok _) =>
    match getGame env fs with
    | (tr, .error e) => (t0 ++ tr, n0, g, c, fs, .error e)
    | (tr, .ok game) =>
      match pickMove env game with
      | (tp, .error e) => (t0 ++ tr ++ tp, n0, g, c, fs, .error e)
      | (tp, .ok m) =>
        if isCastle m then
          (t0 ++ tr ++ tp, n0, g, c, fs, .error "cant handle castle")
        else
          match env.capture c with
          | none => (t0 ++ tr ++ tp ++ [.capture], n0, g, c + 1, fs,
                     .error "capture failed")
          | some data =>
            match movePieceGo env data m.s1 m.s2 n0 g with
            | none => (t0 ++ tr ++ tp ++ [.capture], n0, g, c + 1, fs,
                       .error "displacement fuel exhausted")
            | some (tm, n1, g1, .error e) =>
                (t0 ++ tr ++ tp ++ [.capture] ++ tm, n1, g1, c + 1, fs,
                 .error e)
            | some (tm, n1, g1, .ok _) =>
              match env.applyMove game m with
              | none => (t0 ++ tr ++ tp ++ [.capture] ++ tm, n1, g1, c + 1,
                         fs, .error "illegal move")
              | some game2 =>
                match saveGame game2 with
                | (tw, fs2) =>
                    (t0 ++ tr ++ tp ++ [.capture] ++ tm ++ tw, n1, g1,
                     c + 1, fs2, .ok m)

/-! ## The command dispatcher -/

/-- The decoded command structure. -/
structure MoveCmd where
  fromSq : String
  toSq : String
  rep : ℤ
deriving DecidableEq, Repr

/-- `cmdStruct` of the source. -/
structure CmdStruct where
  move : MoveCmd
  go : ℤ
deriving DecidableEq, Repr

/-- Decoding outcome of the raw command map. -/
inductive DecodeRes where
  | err
  | ok (cmd : CmdStruct)
deriving DecidableEq, Repr

/-- The manual-move loop body: home, capture, move (direction swapped on
odd iterations).  `x` is the iteration index, `k` the iterations left. -/
def manualLoop (env : Env) (fromSq toSq : String) :
    ℕ → ℕ → ℕ → ℕ → ℕ → List Ev × ℕ × ℕ × ℕ × Except String Unit
  | _, 0, n, g, c => ([], n, g, c, .ok ())
  | x, k + 1, n, g, c =>
    match goToStart env n with
    | (t0, n0, .error e) => (t0, n0, g, c, .error e)
    | (t0, n0, .ok _) =>
      let f := if x % 2 = 1 then toSq else fromSq
      let t := if x % 2 = 1 then fromSq else toSq
      match env.capture c with
      | none => (t0 ++ [.capture], n0, g, c + 1, .error "capture failed")
      | some data =>
        match movePieceGo env data f t n0 g with
        | none => (t0 ++ [.capture], n0, g, c + 1,
                   .error "displacement fuel exhausted")
        | some (tm, n1, g1, .error e) =>
            (t0 ++ [.capture] ++ tm, n1, g1, c + 1, .error e)
        | some (tm, n1, g1, .ok _) =>
          match manualLoop env fromSq toSq (x + 1) k n1 g1 (c + 1) with
          | (t2, n2, g2, c2, r) =>
              (t0 ++ [.capture] ++ tm ++ t2, n2, g2, c2, r)

/-- The auto-play loop: `makeAMove` repeatedly, returning the last move. -/
def goLoop (env : Env) :
    ℕ → ℕ → ℕ → ℕ → FileSt → List Ev × ℕ × ℕ × ℕ × FileSt × Except String Move
  | 0, n, g, c, fs => ([], n, g, c, fs, .error "no iterations")
  | k + 1, n, g, c, fs =>
    match makeAMove env n g c fs with
    | (t, n1, g1, c1, fs1, .error e) => (t, n1, g1, c1, fs1, .error e)
    | (t, n1, g1, c1, fs1, .ok m) =>
      match k with
      | 0 => (t, n1, g1, c1, fs1, .ok m)
      | k' + 1 =>
        match goLoop env (k' + 1) n1 g1 c1 fs1 with
        | (t2, n2, g2, c2, fs2, r) => (t ++ t2, n2, g2, c2, fs2, r)

/-- The body of `DoCommand` (everything except the deferred finalizer):
dispatch on the decoded command.  The manual branch returns `none` as
result payload, the auto-play branch the last move's text. -/
def doCommandBody (env : Env) (dec : DecodeRes) (n g c : ℕ) (fs : FileSt) :
    List Ev × ℕ × ℕ × ℕ × FileSt × Except String (Option String) :=
  match dec with
  | .err => ([], n, g, c, fs, .error "decode failed")
  | .ok cmd =>
    if cmd.move.toSq ≠ "" ∧ cmd.move.fromSq ≠ "" then
      match manualLoop env cmd.move.fromSq cmd.move.toSq 0
          cmd.move.rep.toNat n g c with
      | (t, n1, g1, c1, .error e) => (t, n1, g1, c1, fs, .error e)
      | (t, n1, g1, c1, .ok _) => (t, n1, g1, c1, fs, .ok none)
    else if cmd.go > 0 then
      match goLoop env cmd.go.toNat n g c fs with
      | (t, n1, g1, c1, fs1, .error e) => (t, n1, g1, c1, fs1, .error e)
      | (t, n1, g1, c1, fs1, .ok m) =>
          (t, n1, g1, c1, fs1, .ok (some (m.s1 ++ m.s2)))
    else ([], n, g, c, fs, .error "bad cmd")

/-- `DoCommand`: the body, then the deferred homing finalizer whose trace
is appended on every path and whose outcome is discarded (only logged). -/
def DoCommand (env : Env) (dec : DecodeRes) (n g c : ℕ) (fs : FileSt) :
    List Ev × ℕ × ℕ × ℕ × FileSt × Except String (Option String) :=
  match doCommandBody env dec n g c fs with
  | (t, n1, g1, c1, fs1, r) =>
    match goToStart env n1 with
    | (ht, n2, _) => (t ++ ht, n2, g1, c1, fs1, r)

/-- Events the grasp loop and the pick/place sequence can emit. -/
def isLoopEv : Ev → Bool
  | .setup => true
  | .moveArm _ => true
  | .grab => true
  | _ => false

/-- Persistence events. -/
def isFileEv : Ev → Bool
  | .fileRead => true
  | .fileWrite => true
  | _ => false

/-- Events of physical move execution: snapshot captures, gripper
commands, arm motions, grasps, and displacement sub-moves. -/
def isExecEv : Ev → Bool
  | .capture => true
  | .setup => true
  | .moveArm _ => true
  | .grab => true
  | .subCall _ _ => true
  | _ => false

/-- Number of persistence events in a trace. -/
def fileCount (t : List Ev) : ℕ := t.countP isFileEv

/-- Decidable equality for `Except` results. -/
instance {ε α : Type} [DecidableEq ε] [DecidableEq α] :
    DecidableEq (Except ε α) := fun a b =>
  match a, b with
  | .error x, .error y =>
    if h : x = y then isTrue (by rw [h])
    else isFalse (by intro hh; cases hh; exact h rfl)
  | .error x, .ok y => isFalse (fun hh => Except.noConfusion hh)
  | .ok x, .error y => isFalse (fun hh => Except.noConfusion hh)
  | .ok x, .ok y =>
    if h : x = y then isTrue (by rw [h])
    else isFalse (by intro hh; cases hh; exact h rfl)

/-! ## Concrete instances used to instantiate the theorems -/

/-- A colorless point at height 100 (sets the region's maximum height). -/
def topPt : PCPoint := ⟨100, none⟩

/-- A colored point at height 0 with grey value `v` on all channels. -/
def lowPt (v : ℕ) : PCPoint := ⟨0, some ⟨true, v, v, v⟩⟩

/-- Twelve bright colored points at height 0. -/
def low200 : List PCPoint :=
  [lowPt 200, lowPt 200, lowPt 200, lowPt 200, lowPt 200, lowPt 200,
   lowPt 200, lowPt 200, lowPt 200, lowPt 200, lowPt 200, lowPt 200]

/-- Eleven mid-grey colored points at height 0. -/
def low128 : List PCPoint :=
  [lowPt 128, lowPt 128, lowPt 128, lowPt 128, lowPt 128, lowPt 128,
   lowPt 128, lowPt 128, lowPt 128, lowPt 128, lowPt 128]

/-- Eleven bright colored points at height 0. -/
def bright11 : List PCPoint :=
  [lowPt 200, lowPt 200, lowPt 200, lowPt 200, lowPt 200, lowPt 200,
   lowPt 200, lowPt 200, lowPt 200, lowPt 200, lowPt 200]

/-- Region whose only colored points sit far below the maximum height. -/
def pcLow : PointCloud := ⟨topPt :: low200⟩

/-- Region with 11 qualifying points of mean brightness exactly 128. -/
def pcTie : PointCloud := ⟨topPt :: low128⟩

/-- Region with 11 qualifying bright points. -/
def pcBright : PointCloud := ⟨topPt :: bright11⟩

/-- Environment whose grasps always report success with aperture 5
(so `myGrab` always verifies `false`) and whose motions all succeed. -/
def envW5 : Env :=
  { prim := fun _ => true
    grab := fun _ => ⟨.ok true, .ok (some 5)⟩
    capture := fun _ => none
    hasEngine := true
    pick := fun _ => none
    validMoves := fun _ => []
    applyMove := fun _ _ => none
    fenParse := fun _ => none }

/-- Environment whose grasps succeed at once (aperture 30). -/
def envOk : Env :=
  { envW5 with grab := fun _ => ⟨.ok true, .ok (some 30)⟩ }

/-- The occupied destination object of the sample capture. -/
def objE4 : Obj := ⟨"e4-2", ⟨30, 40, 5⟩, ⟨31, 41, 55⟩⟩

/-- The empty square object of the sample capture. -/
def objD4 : Obj := ⟨"d4-0", ⟨70, 80, 4⟩, ⟨71, 81, 6⟩⟩

/-- A sample capture: an occupied source, an occupied destination, and an
empty square. -/
def dataW : Capture :=
  ⟨[⟨"e2-1", ⟨10, 20, 50⟩, ⟨11, 21, 60⟩⟩, objE4, objD4]⟩

/-- A king-side castle move. -/
def mCastle : Move := ⟨"e1", "g1", [.kingSideCastle]⟩

/-- Environment whose engine always proposes the castle move and whose
drivers all succeed. -/
def envC2 : Env :=
  { envOk with pick := fun _ => some mCastle }

/-- A manual-move command toggling e2 and e4 once. -/
def cmdW : CmdStruct := ⟨⟨"e2", "e4", 1⟩, 0⟩

/-! ## Classifier lemmas -/

/-- The single-pass accumulation equals the channel sums over the
filtered point list. -/
theorem foldl_colorStep (minZ : ℚ) (l : List PCPoint) (acc : ColorAcc) :
    l.foldl (colorStep minZ) acc =
      ⟨acc.totalR + channelSum (fun d => d.r) (l.filter (qualifiesAt minZ)),
       acc.totalG + channelSum (fun d => d.g) (l.filter (qualifiesAt minZ)),
       acc.totalB + channelSum (fun d => d.b) (l.filter (qualifiesAt minZ)),
       acc.count + (l.filter (qualifiesAt minZ)).length⟩ := by
  induction l generalizing acc with
  | nil => simp [channelSum]
  | cons p l ih =>
    by_cases hq : qualifiesAt minZ p
    · match hd : p.d with
      | none =>
        exfalso
        simp [qualifiesAt, hd] at hq
      | some d =>
        simp only [List.foldl_cons, List.filter_cons_of_pos hq, ih,
          colorStep, hq, if_true, hd, channelSum, List.map_cons,
          List.sum_cons, List.length_cons, ColorAcc.mk.injEq]
        refine ⟨by ring, by ring, by ring, by omega⟩
    · simp only [List.foldl_cons, List.filter_cons_of_neg hq, ih,
        colorStep, hq, if_false, Bool.false_eq_true]

/-- `estimatePieceColor` equals the classification of the filtered list
of qualifying points. -/
theorem estimatePieceColor_eq_classifyList (pc : PointCloud) :
    estimatePieceColor pc = classifyList (lowColoredPoints pc) := by
  show classifyAcc (pc.points.foldl (colorStep (pc.maxZ - minPieceSize))
      ⟨0, 0, 0, 0⟩) = _
  rw [foldl_colorStep]
  simp [classifyList, lowColoredPoints]

/-- Folding `max` from a `max`ed seed. -/
theorem foldlMax_init (l : List PCPoint) (a b : ℚ) :
    l.foldl (fun acc q => max acc q.z) (max a b) =
      max a (l.foldl (fun acc q => max acc q.z) b) := by
  induction l generalizing b with
  | nil => rfl
  | cons p l ih =>
    simp only [List.foldl_cons, max_assoc, ih]

/-- `maxZ` of a nonempty cloud with one more point. -/
theorem maxZ_cons (q p : PCPoint) (ps : List PCPoint) :
    (PointCloud.mk (q :: p :: ps)).maxZ =
      max q.z (PointCloud.mk (p :: ps)).maxZ := by
  show (p :: ps).foldl (fun acc r => max acc r.z) q.z = _
  show ps.foldl (fun acc r => max acc r.z) (max q.z p.z) = _
  rw [foldlMax_init]
  rfl

/-- C1:
The classification is computed from exactly the colored points lying
strictly MORE than `minPieceSize` (20) units below the region's maximum
height (code: `p.Z < MaxZ - minPieceSize`); a colored point inside the
20-unit band directly below the maximum height contributes nothing, as
inserting one leaves the classification unchanged.  (This is the amended
form of the claim: the code's band is the complement of the claimed
one.) -/
theorem C1_low_points_classify (pc : PointCloud) :
    (estimatePieceColor pc = classifyList (lowColoredPoints pc) ∧
      ∀ p ∈ lowColoredPoints pc, p.z < pc.maxZ - minPieceSize) ∧
    (∀ q : PCPoint, pc.points ≠ [] → q.z ≤ pc.maxZ →
      pc.maxZ - minPieceSize ≤ q.z →
      estimatePieceColor ⟨q :: pc.points⟩ = estimatePieceColor pc) := by
  constructor
  · refine ⟨estimatePieceColor_eq_classifyList pc, ?_⟩
    intro p hp
    have := List.of_mem_filter hp
    simp only [qualifiesAt, Bool.and_eq_true, decide_eq_true_eq] at this
    exact this.1
  · intro q hne hle hband
    obtain ⟨pts⟩ := pc
    match pts, hne, hle, hband with
    | p :: ps, _, hle, hband =>
      have hmax : (PointCloud.mk (q :: p :: ps)).maxZ =
          (PointCloud.mk (p :: ps)).maxZ := by
        rw [maxZ_cons]
        exact max_eq_right hle
      show classifyAcc ((q :: p :: ps).foldl
          (colorStep ((PointCloud.mk (q :: p :: ps)).maxZ - minPieceSize))
          ⟨0, 0, 0, 0⟩) = classifyAcc ((p :: ps).foldl
          (colorStep ((PointCloud.mk (p :: ps)).maxZ - minPieceSize))
          ⟨0, 0, 0, 0⟩)
      rw [hmax]
      have hq : qualifiesAt ((PointCloud.mk (p :: ps)).maxZ - minPieceSize) q
          = false := by
        simp only [qualifiesAt, Bool.and_eq_false_iff, decide_eq_false_iff_not,
          not_lt]
        left
        exact hband
      have hstep : colorStep ((PointCloud.mk (p :: ps)).maxZ - minPieceSize)
          ⟨0, 0, 0, 0⟩ q = ⟨0, 0, 0, 0⟩ := by
        simp [colorStep, hq]
      rw [List.foldl_cons, hstep]

/-- Classification with the mean-brightness comparison cleared of
divisions (for a region with more than 10 qualifying points). -/
theorem classifyAcc_spec (acc : ColorAcc) (h : 10 < acc.count) :
    classifyAcc acc =
      if 384 * (acc.count : ℚ) < acc.totalR + acc.totalG + acc.totalB
      then 1 else 2 := by
  have hc : (0 : ℚ) < (acc.count : ℚ) := by
    have h0 : 0 < acc.count := by omega
    exact_mod_cast h0
  have key : ((acc.totalR / acc.count + acc.totalG / acc.count
      + acc.totalB / acc.count) / 3 > 128) ↔
      384 * (acc.count : ℚ) < acc.totalR + acc.totalG + acc.totalB := by
    rw [gt_iff_lt, div_add_div_same, div_add_div_same, div_div,
      lt_div_iff₀ (by positivity)]
    constructor <;> intro h' <;> linarith
  unfold classifyAcc
  rw [if_neg (by omega)]
  show (if (acc.totalR / (acc.count : ℚ) + acc.totalG / acc.count
      + acc.totalB / acc.count) / 3 > 128 then 1 else 2) = _
  simp only [key]

/-- The maximum height of `pcLow`. -/
theorem pcLow_maxZ : pcLow.maxZ = 100 := by decide

/-- The classifier's height threshold on `pcLow`. -/
theorem pcLow_band : pcLow.maxZ - minPieceSize = 80 := by
  rw [pcLow_maxZ]
  norm_num [minPieceSize]

/-- The qualifying points of `pcLow` are exactly its 12 low points. -/
theorem pcLow_low : lowColoredPoints pcLow = low200 := by
  show List.filter (qualifiesAt (pcLow.maxZ - minPieceSize)) pcLow.points
      = low200
  rw [pcLow_band]
  decide

/-- Channel sum over the 12 bright points. -/
theorem low200_sum (f : PCData → ℕ) (hf : ∀ d, f d = d.r) :
    channelSum f low200 = 2400 := by
  norm_num [channelSum, low200, lowPt, hf]

/-- C1 counterexample: on `pcLow` every colored point lies more than 20
units below the maximum height, yet the code classifies White (1), while
the classifier built from the claim's wording (keep only the 20-unit band
below the maximum) sees no qualifying points and classifies blank (0). -/
theorem C1_counterexample :
    estimatePieceColor pcLow = 1 ∧ estimatePieceColorBand pcLow = 0 ∧
      (∀ p ∈ lowColoredPoints pcLow, p.z < pcLow.maxZ - minPieceSize) ∧
      lowColoredPoints pcLow ≠ [] := by
  refine ⟨?_, ?_, ?_, ?_⟩
  · rw [estimatePieceColor_eq_classifyList, pcLow_low]
    show classifyAcc ⟨channelSum (fun d => d.r) low200,
      channelSum (fun d => d.g) low200,
      channelSum (fun d => d.b) low200, low200.length⟩ = 1
    rw [low200_sum _ (fun d => rfl),
      show channelSum (fun d => d.g) low200 = 2400 by
        norm_num [channelSum, low200, lowPt],
      show channelSum (fun d => d.b) low200 = 2400 by
        norm_num [channelSum, low200, lowPt],
      show low200.length = 12 from rfl,
      classifyAcc_spec _ (by norm_num)]
    norm_num
  · simp only [estimatePieceColorBand, pcLow_band]
    decide
  · rw [pcLow_low, pcLow_band]
    decide
  · rw [pcLow_low]
    decide

/-- C1 witness: inserting a colored point lying inside the 20-unit band
below the maximum height of `pcLow` leaves the classification
unchanged. -/
theorem C1_witness :
    pcLow.points ≠ [] ∧ topPt.z ≤ pcLow.maxZ ∧
      pcLow.maxZ - minPieceSize ≤ topPt.z ∧
      estimatePieceColor ⟨topPt :: pcLow.points⟩ = estimatePieceColor pcLow :=
  have h1 : pcLow.points ≠ [] := by decide
  have h2 : topPt.z ≤ pcLow.maxZ := by rw [pcLow_maxZ]; decide
  have h3 : pcLow.maxZ - minPieceSize ≤ topPt.z := by rw [pcLow_band]; decide
  ⟨h1, h2, h3, (C1_low_points_classify pcLow).2 topPt h1 h2 h3⟩

/-- The maximum height of `pcTie`. -/
theorem pcTie_maxZ : pcTie.maxZ = 100 := by decide

/-- The classifier's height threshold on `pcTie`. -/
theorem pcTie_band : pcTie.maxZ - minPieceSize = 80 := by
  rw [pcTie_maxZ]
  norm_num [minPieceSize]

/-- The qualifying points of `pcTie` are exactly its 11 low points. -/
theorem pcTie_low : lowColoredPoints pcTie = low128 := by
  show List.filter (qualifiesAt (pcTie.maxZ - minPieceSize)) pcTie.points
      = low128
  rw [pcTie_band]
  decide

/-- C3 (amended): for a region with more than 10 qualifying points the
code classifies White exactly when the mean brightness is STRICTLY above
128, and Black exactly when it is at most 128 (at exactly 128 the code
picks Black, not White as the claim states). -/
theorem C3_brightness_threshold (pc : PointCloud) (h : 10 < qualCount pc) :
    (estimatePieceColor pc = 1 ↔ 128 < meanBrightness pc) ∧
    (estimatePieceColor pc = 2 ↔ meanBrightness pc ≤ 128) := by
  have hq : ¬ ((lowColoredPoints pc).length ≤ 10) := by
    unfold qualCount at h
    omega
  have hb : estimatePieceColor pc =
      if 128 < meanBrightness pc then 1 else 2 := by
    rw [estimatePieceColor_eq_classifyList]
    show classifyAcc ⟨channelSum (fun d => d.r) (lowColoredPoints pc),
      channelSum (fun d => d.g) (lowColoredPoints pc),
      channelSum (fun d => d.b) (lowColoredPoints pc),
      (lowColoredPoints pc).length⟩ = _
    unfold classifyAcc
    rw [if_neg hq]
    rfl
  rw [hb]
  split_ifs with hc
  · exact ⟨⟨fun _ => hc, fun _ => rfl⟩,
      ⟨fun h12 => absurd h12 (by norm_num),
       fun hle => absurd hc (not_lt.mpr hle)⟩⟩
  · exact ⟨⟨fun h21 => absurd h21 (by norm_num), fun hlt => absurd hlt hc⟩,
      ⟨fun _ => not_lt.mp hc, fun _ => rfl⟩⟩

/-- C3 counterexample: `pcTie` has 11 qualifying points and mean
brightness exactly 128 (so the claim's `≥ 128` rule would classify it
White), yet the code classifies it Black (2). -/
theorem C3_counterexample :
    10 < qualCount pcTie ∧ meanBrightness pcTie = 128 ∧
      estimatePieceColor pcTie = 2 := by
  have hr : channelSum (fun d => d.r) low128 = 1408 := by
    norm_num [channelSum, low128, lowPt]
  have hg : channelSum (fun d => d.g) low128 = 1408 := by
    norm_num [channelSum, low128, lowPt]
  have hbb : channelSum (fun d => d.b) low128 = 1408 := by
    norm_num [channelSum, low128, lowPt]
  refine ⟨by rw [qualCount, pcTie_low]; decide, ?_, ?_⟩
  · show (channelSum (fun d => d.r) (lowColoredPoints pcTie)
        / ((lowColoredPoints pcTie).length : ℚ)
      + channelSum (fun d => d.g) (lowColoredPoints pcTie)
        / ((lowColoredPoints pcTie).length : ℚ)
      + channelSum (fun d => d.b) (lowColoredPoints pcTie)
        / ((lowColoredPoints pcTie).length : ℚ)) / 3 = 128
    rw [pcTie_low, hr, hg, hbb, show low128.length = 11 from rfl]
    norm_num
  · rw [estimatePieceColor_eq_classifyList, pcTie_low]
    show classifyAcc ⟨channelSum (fun d => d.r) low128,
      channelSum (fun d => d.g) low128,
      channelSum (fun d => d.b) low128, low128.length⟩ = 2
    rw [hr, hg, hbb, show low128.length = 11 from rfl,
      classifyAcc_spec _ (by norm_num)]
    norm_num

/-- The classifier's height threshold on `pcBright`. -/
theorem pcBright_band : pcBright.maxZ - minPieceSize = 80 := by
  rw [show pcBright.maxZ = 100 by decide]
  norm_num [minPieceSize]

/-- The qualifying points of `pcBright` are exactly its 11 low points. -/
theorem pcBright_low : lowColoredPoints pcBright = bright11 := by
  show List.filter (qualifiesAt (pcBright.maxZ - minPieceSize))
      pcBright.points = bright11
  rw [pcBright_band]
  decide

/-- C3 witness: the threshold characterisation at the concrete region
`pcBright`. -/
theorem C3_witness :
    10 < qualCount pcBright ∧
      ((estimatePieceColor pcBright = 1 ↔ 128 < meanBrightness pcBright) ∧
       (estimatePieceColor pcBright = 2 ↔ meanBrightness pcBright ≤ 128)) :=
  have h : 10 < qualCount pcBright := by rw [qualCount, pcBright_low]; decide
  ⟨h, C3_brightness_threshold pcBright h⟩

/-! ## C4: the grasp verification rule -/

/-- C4 (amended): a grasp attempt is accepted (`myGrab` returns
`ok true`) iff the grab call reported success AND the measured aperture
is AT LEAST the 20-unit threshold (at exactly 20 the code accepts, so the
claim's "exceeds" is amended to "at least"); and a reported success with
aperture strictly below 20 is returned as a failed grasp. -/
theorem C4_grasp_verification (e : GrabEnv) :
    (myGrab e = .ok true ↔
      (e.grabResult = .ok true ∧
        ∃ p, e.armResult = .ok (some p) ∧ 20 ≤ p)) ∧
    (∀ p, e.grabResult = .ok true → e.armResult = .ok (some p) → p < 20 →
      myGrab e = .ok false) := by
  obtain ⟨gr, ar⟩ := e
  match gr, ar with
  | .error u, ar =>
    refine ⟨by simp [myGrab], ?_⟩
    intro p hg
    exact absurd hg (by simp)
  | .ok got, .error u =>
    refine ⟨by simp [myGrab], ?_⟩
    intro p hg ha
    exact absurd ha (by simp)
  | .ok got, .ok none =>
    refine ⟨by simp [myGrab], ?_⟩
    intro p hg ha
    exact absurd ha (by simp)
  | .ok got, .ok (some p) =>
    constructor
    · by_cases hp : p < 20 ∧ got = true
      · rw [show myGrab ⟨.ok got, .ok (some p)⟩ = .ok false from if_pos hp]
        simp only [Except.ok.injEq, Bool.false_eq_true, false_iff, not_and]
        intro hgot ⟨q, hq, hle⟩
        obtain ⟨rfl⟩ : p = q := by simpa using hq
        exact absurd hle (not_le.mpr hp.1)
      · rw [show myGrab ⟨.ok got, .ok (some p)⟩ = .ok got from if_neg hp]
        constructor
        · intro hgot
          have hg : got = true := by simpa using hgot
          subst hg
          refine ⟨rfl, p, rfl, ?_⟩
          rcases not_and_or.mp hp with h | h
          · exact not_lt.mp h
          · exact absurd rfl h
        · rintro ⟨hgot, q, hq, hle⟩
          have hg : got = true := by simpa using hgot
          subst hg
          rfl
    · intro q hg ha hlt
      have hgot : got = true := by simpa using hg
      have hq : p = q := by simpa using ha
      subst hgot
      subst hq
      exact if_pos ⟨hlt, rfl⟩

/-- C4 counterexample: at aperture exactly 20 with a successful grab call
the code accepts the grasp, but the claim's acceptance condition
("aperture exceeds 20") does not hold. -/
theorem C4_counterexample :
    myGrab ⟨.ok true, .ok (some 20)⟩ = .ok true ∧
      ¬ myGrabClaimAccept ⟨.ok true, .ok (some 20)⟩ := by
  constructor
  · simp [myGrab]
  · rintro ⟨-, p, hp, hlt⟩
    have : (20 : ℚ) = p := by simpa using hp
    rw [← this] at hlt
    exact absurd hlt (by norm_num)

/-- C4 witness: acceptance at aperture 25, rejection of a reported
success at aperture 5. -/
theorem C4_witness :
    myGrab ⟨.ok true, .ok (some 25)⟩ = .ok true ∧
      myGrab ⟨.ok true, .ok (some 5)⟩ = .ok false :=
  ⟨(C4_grasp_verification ⟨.ok true, .ok (some 25)⟩).1.mpr
      ⟨rfl, 25, rfl, by norm_num⟩,
   (C4_grasp_verification ⟨.ok true, .ok (some 5)⟩).2 5 rfl rfl (by norm_num)⟩

/-! ## C5: the grasp-retry loop -/

/-- A retry step strictly decreases the sufficient fuel. -/
theorem fuelFor_step (z : ℚ) (hz : 0 ≤ z - 10) :
    fuelFor (z - 10) + 1 ≤ fuelFor z := by
  have h10 : (10 : ℤ) ≤ ⌊z⌋ := by
    rw [Int.le_floor]
    push_cast
    linarith
  have hfl : ⌊z - 10⌋ = ⌊z⌋ - 10 := by
    rw [show (10 : ℚ) = ((10 : ℤ) : ℚ) by norm_num, Int.floor_sub_int]
  unfold fuelFor
  rw [hfl]
  omega

/-- A retry step decrements the attempt bound `⌊z/10⌋ + 1`. -/
theorem floorDiv_step (z : ℚ) (hz : 0 ≤ z - 10) :
    (⌊(z - 10) / 10⌋).toNat + 1 = (⌊z / 10⌋).toNat := by
  have h1 : (z - 10) / 10 = z / 10 - 1 := by ring
  have h2 : ⌊z / 10 - 1⌋ = ⌊z / 10⌋ - 1 := by
    rw [show (1 : ℚ) = ((1 : ℤ) : ℚ) by norm_num, Int.floor_sub_int]
  have h3 : (1 : ℤ) ≤ ⌊z / 10⌋ := by
    rw [Int.le_floor]
    rw [show ((1 : ℤ) : ℚ) = 1 by norm_num, le_div_iff₀ (by norm_num : (0:ℚ) < 10)]
    linarith
  rw [h1, h2]
  omega


/-- One step of the loop: the descend motion fails. -/
theorem grabLoopFuel_moveFail (env : Env) (x y : ℚ) (fuel : ℕ) (z : ℚ)
    (n g : ℕ) (h : env.prim n = false) :
    grabLoopFuel env x y (fuel + 1) z n g =
      some ([.moveArm ⟨x, y, z⟩], n + 1, g, .error "cant move to grab") := by
  simp [grabLoopFuel, h]

/-- One step of the loop: `myGrab` errors out. -/
theorem grabLoopFuel_grabErr (env : Env) (x y : ℚ) (fuel : ℕ) (z : ℚ)
    (n g : ℕ) (e : GrabErr) (h1 : env.prim n = true)
    (h2 : myGrab (env.grab g) = .error e) :
    grabLoopFuel env x y (fuel + 1) z n g =
      some ([.moveArm ⟨x, y, z⟩, .grab], n + 1, g + 1,
        .error "grab failed") := by
  simp [grabLoopFuel, h1, h2]

/-- One step of the loop: the grasp verifies and the loop stops. -/
theorem grabLoopFuel_grabTrue (env : Env) (x y : ℚ) (fuel : ℕ) (z : ℚ)
    (n g : ℕ) (h1 : env.prim n = true)
    (h2 : myGrab (env.grab g) = .ok true) :
    grabLoopFuel env x y (fuel + 1) z n g =
      some ([.moveArm ⟨x, y, z⟩, .grab], n + 1, g + 1, .ok z) := by
  simp [grabLoopFuel, h1, h2]

/-- One failing iteration that hits the floor guard. -/
theorem grabLoopFuel_floorStep (env : Env) (x y : ℚ) (fuel : ℕ) (z : ℚ)
    (n g : ℕ) (h1 : env.prim n = true)
    (h2 : myGrab (env.grab g) = .ok false) (h3 : z - 10 < 0) :
    grabLoopFuel env x y (fuel + 1) z n g =
      some ([.moveArm ⟨x, y, z⟩, .grab], n + 1, g + 1,
        .error "couldnt grab, and scared to go lower") := by
  simp [grabLoopFuel, h1, h2, h3]

/-- One failing iteration whose retry preparation (gripper re-open)
fails. -/
theorem grabLoopFuel_setupFail (env : Env) (x y : ℚ) (fuel : ℕ) (z : ℚ)
    (n g : ℕ) (h1 : env.prim n = true)
    (h2 : myGrab (env.grab g) = .ok false) (h3 : ¬ z - 10 < 0)
    (h4 : env.prim (n + 1) = false) :
    grabLoopFuel env x y (fuel + 1) z n g =
      some ([.moveArm ⟨x, y, z⟩, .grab, .setup], n + 2, g + 1,
        .error "cant setup gripper") := by
  simp [grabLoopFuel, h1, h2, h3, h4]

/-- One failing iteration followed by a retry at height `z - 10`. -/
theorem grabLoopFuel_retry (env : Env) (x y : ℚ) (fuel : ℕ) (z : ℚ)
    (n g : ℕ) (h1 : env.prim n = true)
    (h2 : myGrab (env.grab g) = .ok false) (h3 : ¬ z - 10 < 0)
    (h4 : env.prim (n + 1) = true) (t : List Ev) (n' g' : ℕ)
    (r : Except String ℚ)
    (hres : grabLoopFuel env x y fuel (z - 10) (n + 2) (g + 1)
      = some (t, n', g', r)) :
    grabLoopFuel env x y (fuel + 1) z n g =
      some (.moveArm ⟨x, y, z⟩ :: .grab :: .setup :: t, n', g', r) := by
  simp [grabLoopFuel, h1, h2, h3, h4, hres]

/-- One failing iteration whose retry runs out of fuel. -/
theorem grabLoopFuel_retry_none (env : Env) (x y : ℚ) (fuel : ℕ) (z : ℚ)
    (n g : ℕ) (h1 : env.prim n = true)
    (h2 : myGrab (env.grab g) = .ok false) (h3 : ¬ z - 10 < 0)
    (h4 : env.prim (n + 1) = true)
    (hres : grabLoopFuel env x y fuel (z - 10) (n + 2) (g + 1) = none) :
    grabLoopFuel env x y (fuel + 1) z n g = none := by
  simp [grabLoopFuel, h1, h2, h3, h4, hres]

/-- A `Bool` that is not `false` is `true`. -/
theorem prim_true {b : Bool} (h : ¬ b = false) : b = true := by
  cases b
  · exact absurd rfl h
  · rfl

/-- The fuel `fuelFor z` is never exhausted: the retry loop terminates
with a definite outcome for every initial target height. -/
theorem grabLoopFuel_isSome (env : Env) (x y : ℚ) :
    ∀ fuel (z : ℚ) (n g : ℕ), fuelFor z ≤ fuel →
      (grabLoopFuel env x y fuel z n g).isSome := by
  intro fuel
  induction fuel with
  | zero =>
    intro z n g hf
    exfalso
    unfold fuelFor at hf
    omega
  | succ fuel ih =>
    intro z n g hf
    by_cases hp : env.prim n = false
    · rw [grabLoopFuel_moveFail env x y fuel z n g hp]
      rfl
    · have hp' := prim_true hp
      match hmg : myGrab (env.grab g) with
      | .error e =>
        rw [grabLoopFuel_grabErr env x y fuel z n g e hp' hmg]
        rfl
      | .ok true =>
        rw [grabLoopFuel_grabTrue env x y fuel z n g hp' hmg]
        rfl
      | .ok false =>
        by_cases hz10 : z - 10 < 0
        · rw [grabLoopFuel_floorStep env x y fuel z n g hp' hmg hz10]
          rfl
        · by_cases hp2 : env.prim (n + 1) = false
          · rw [grabLoopFuel_setupFail env x y fuel z n g hp' hmg hz10 hp2]
            rfl
          · have hs := ih (z - 10) (n + 2) (g + 1)
              (by have := fuelFor_step z (not_lt.mp hz10); omega)
            obtain ⟨⟨t, n', g', r⟩, hres⟩ := Option.isSome_iff_exists.mp hs
            rw [grabLoopFuel_retry env x y fuel z n g hp' hmg hz10
              (prim_true hp2) t n' g' r hres]
            rfl

/-- The one-element height sequence. -/
theorem range_one_heights (z : ℚ) :
    (List.range 1).map (fun j : ℕ => z - 10 * (j : ℚ)) = [z] := by
  rw [show List.range 1 = [0] from rfl, List.map_cons, List.map_nil]
  norm_num

/-- Prepending an iteration to the height sequence. -/
theorem range_succ_heights (z : ℚ) (k : ℕ) :
    z :: (List.range k).map (fun j : ℕ => (z - 10) - 10 * (j : ℚ)) =
      (List.range (k + 1)).map (fun j : ℕ => z - 10 * (j : ℚ)) := by
  rw [List.range_succ_eq_map, List.map_cons, List.map_map]
  congr 1
  · norm_num
  · apply List.map_congr_left
    intro j hj
    show (z - 10) - 10 * (j : ℚ) = z - 10 * (((j : ℕ) + 1 : ℕ) : ℚ)
    push_cast
    ring

/-- Full characterisation of the retry loop: it yields a result, the
descend commands form the arithmetic sequence `z, z-10, …`, the number of
iterations is at most `⌊z/10⌋ + 1`, each iteration grasps at most once,
and when every grasp attempt fails (with all motions fine) the loop ends
in the floor error. -/
theorem grabLoopFuel_spec (env : Env) (x y : ℚ) :
    ∀ fuel (z : ℚ) (n g : ℕ), 0 ≤ z → fuelFor z ≤ fuel →
    ∃ t n' g' r k, grabLoopFuel env x y fuel z n g = some (t, n', g', r) ∧
      descendHeights t = (List.range k).map (fun j : ℕ => z - 10 * (j : ℚ)) ∧
      1 ≤ k ∧ k ≤ (⌊z / 10⌋).toNat + 1 ∧
      grabCount t ≤ k ∧
      ((∀ j, env.prim j = true) →
        (∀ j, myGrab (env.grab j) = .ok false) →
        r = .error "couldnt grab, and scared to go lower") := by
  intro fuel
  induction fuel with
  | zero =>
    intro z n g hz hf
    exfalso
    unfold fuelFor at hf
    omega
  | succ fuel ih =>
    intro z n g hz hf
    by_cases hp : env.prim n = false
    · refine ⟨_, _, _, _, 1, grabLoopFuel_moveFail env x y fuel z n g hp,
        ?_, le_refl 1, by omega, ?_, ?_⟩
      · rw [range_one_heights]
        rfl
      · simp [grabCount, List.countP_cons, List.countP_nil]
      · intro hprim _
        exact absurd (hprim n) (by rw [hp]; simp)
    · have hp' := prim_true hp
      match hmg : myGrab (env.grab g) with
      | .error e =>
        refine ⟨_, _, _, _, 1,
          grabLoopFuel_grabErr env x y fuel z n g e hp' hmg,
          ?_, le_refl 1, by omega, ?_, ?_⟩
        · rw [range_one_heights]
          rfl
        · simp [grabCount, List.countP_cons, List.countP_nil]
        · intro _ hgrab
          rw [hgrab g] at hmg
          exact absurd hmg (by simp)
      | .ok true =>
        refine ⟨_, _, _, _, 1,
          grabLoopFuel_grabTrue env x y fuel z n g hp' hmg,
          ?_, le_refl 1, by omega, ?_, ?_⟩
        · rw [range_one_heights]
          rfl
        · simp [grabCount, List.countP_cons, List.countP_nil]
        · intro _ hgrab
          rw [hgrab g] at hmg
          exact absurd hmg (by simp)
      | .ok false =>
        by_cases hz10 : z - 10 < 0
        · refine ⟨_, _, _, _, 1,
            grabLoopFuel_floorStep env x y fuel z n g hp' hmg hz10,
            ?_, le_refl 1, by omega, ?_, ?_⟩
          · rw [range_one_heights]
            rfl
          · simp [grabCount, List.countP_cons, List.countP_nil]
          · intro _ _
            rfl
        · by_cases hp2 : env.prim (n + 1) = false
          · refine ⟨_, _, _, _, 1,
              grabLoopFuel_setupFail env x y fuel z n g hp' hmg hz10 hp2,
              ?_, le_refl 1, by omega, ?_, ?_⟩
            · rw [range_one_heights]
              rfl
            · simp [grabCount, List.countP_cons, List.countP_nil]
            · intro hprim _
              exact absurd (hprim (n + 1)) (by rw [hp2]; simp)
          · obtain ⟨t1, n1, g1, r1, k1, hres, hh, hk1, hkb, hgc, hr⟩ :=
              ih (z - 10) (n + 2) (g + 1) (not_lt.mp hz10)
                (by have := fuelFor_step z (not_lt.mp hz10); omega)
            refine ⟨_, _, _, _, k1 + 1,
              grabLoopFuel_retry env x y fuel z n g hp' hmg hz10
                (prim_true hp2) t1 n1 g1 r1 hres,
              ?_, by omega, ?_, ?_, ?_⟩
            · show z :: descendHeights t1 = _
              rw [hh, range_succ_heights]
            · rw [← floorDiv_step z (not_lt.mp hz10)]
              omega
            · show grabCount (Ev.moveArm ⟨x, y, z⟩ :: Ev.grab :: Ev.setup :: t1)
                ≤ k1 + 1
              have hstep : grabCount
                  (Ev.moveArm ⟨x, y, z⟩ :: Ev.grab :: Ev.setup :: t1)
                  = grabCount t1 + 1 := by
                simp [grabCount, List.countP_cons]
              rw [hstep]
              omega
            · intro hprim hgrab
              exact hr hprim hgrab

/-- C5 (amended): for every NONNEGATIVE initial target height the retry
loop terminates, commands descend heights `z, z-10, …` that never go
below 0, makes at most `⌊z/10⌋ + 1` grasp attempts, and ends in the
floor-guard error when no attempt ever verifies. -/
theorem C5_retry_loop (env : Env) (x y z : ℚ) (n g : ℕ) (hz : 0 ≤ z) :
    ∃ t n' g' r k, grabLoop env x y z n g = some (t, n', g', r) ∧
      descendHeights t = (List.range k).map (fun j : ℕ => z - 10 * (j : ℚ)) ∧
      k ≤ (⌊z / 10⌋).toNat + 1 ∧
      (∀ h ∈ descendHeights t, 0 ≤ h) ∧
      grabCount t ≤ k ∧
      ((∀ j, env.prim j = true) →
        (∀ j, myGrab (env.grab j) = .ok false) →
        r = .error "couldnt grab, and scared to go lower") := by
  obtain ⟨t, n', g', r, k, hres, hh, hk1, hkb, hgc, hr⟩ :=
    grabLoopFuel_spec env x y (fuelFor z) z n g hz (le_refl _)
  refine ⟨t, n', g', r, k, hres, hh, hkb, ?_, hgc, hr⟩
  intro h hmem
  rw [hh] at hmem
  obtain ⟨j, hj, rfl⟩ := List.mem_map.mp hmem
  have hjlt : j < k := List.mem_range.mp hj
  have hfnn : (0 : ℤ) ≤ ⌊z / 10⌋ := Int.floor_nonneg.mpr (by positivity)
  have hjle : (j : ℤ) ≤ ⌊z / 10⌋ := by
    have : j ≤ (⌊z / 10⌋).toNat := by omega
    omega
  have hq : (j : ℚ) ≤ z / 10 := le_trans (by exact_mod_cast hjle)
    (Int.floor_le _)
  have : 10 * (j : ℚ) ≤ z := by
    rw [le_div_iff₀ (by norm_num : (0:ℚ) < 10)] at hq
    linarith [hq]
  linarith

/-- Every grasp attempt under `envW5` reads back aperture 5 and is
reported failed. -/
theorem envW5_grab_false (g : ℕ) : myGrab (envW5.grab g) = .ok false := by
  norm_num [envW5, myGrab]

/-- C5 counterexample: started at target height `-5` the loop's first
descend command is at height `-5 < 0`, refuting "the commanded descend
height never goes below 0" for arbitrary initial heights (the floor guard
only fires after the first decrement). -/
theorem C5_counterexample :
    grabLoop envW5 1 2 (-5) 0 0 =
      some ([.moveArm ⟨1, 2, -5⟩, .grab], 1, 1,
        .error "couldnt grab, and scared to go lower") ∧
      descendHeights [Ev.moveArm ⟨1, 2, -5⟩, Ev.grab] = [-5] ∧
      ((-5 : ℚ) < 0) := by
  refine ⟨?_, by simp [descendHeights], by norm_num⟩
  show grabLoopFuel envW5 1 2 (fuelFor (-5)) (-5) 0 0 = _
  rw [show fuelFor (-5) = 0 + 1 by norm_num [fuelFor]]
  exact grabLoopFuel_floorStep envW5 1 2 0 (-5) 0 0 rfl
    (envW5_grab_false 0) (by norm_num)

/-- C5 witness: the loop characterisation at initial height 25. -/
theorem C5_witness :
    (0 : ℚ) ≤ 25 ∧
    ∃ t n' g' r k, grabLoop envW5 3 4 25 0 0 = some (t, n', g', r) ∧
      descendHeights t = (List.range k).map (fun j : ℕ => (25 : ℚ) - 10 * (j : ℚ)) ∧
      k ≤ (⌊(25 : ℚ) / 10⌋).toNat + 1 ∧
      (∀ h ∈ descendHeights t, 0 ≤ h) ∧
      grabCount t ≤ k ∧
      ((∀ j, envW5.prim j = true) →
        (∀ j, myGrab (envW5.grab j) = .ok false) →
        r = .error "couldnt grab, and scared to go lower") :=
  ⟨by norm_num, C5_retry_loop envW5 3 4 25 0 0 (by norm_num)⟩

/-! ## C7: the coordinate resolver -/

/-- C7: the discard sentinel maps every snapshot to the fixed point
(400, -400, 400) and always succeeds; a label found in the snapshot
resolves to the region's center when the square is classified Empty
(label suffix `"-0"`), and otherwise to the point whose horizontal
coordinates average the center and the highest point and whose vertical
coordinate is the highest point's. -/
theorem C7_resolver (data : Capture) (pos : String) (o : Obj)
    (hpos : pos ≠ "-") (hfind : findObject data pos = some o) :
    (∀ d : Capture, getCenterFor d "-" = .ok ⟨400, -400, 400⟩) ∧
    (strHasSuf o.label "-0" = true → getCenterFor data pos = .ok o.center) ∧
    (strHasSuf o.label "-0" = false →
      getCenterFor data pos =
        .ok ⟨(o.center.x + o.high.x) / 2, (o.center.y + o.high.y) / 2,
             o.high.z⟩) := by
  refine ⟨fun d => by simp [getCenterFor], ?_, ?_⟩
  · intro hemp
    unfold getCenterFor
    rw [if_neg hpos, hfind]
    simp [hemp]
  · intro hocc
    unfold getCenterFor
    rw [if_neg hpos, hfind]
    simp [hocc]

/-- C7 witness: resolution of the occupied square `e4` of the sample
capture. -/
theorem C7_witness :
    ("e4" : String) ≠ "-" ∧ findObject dataW "e4" = some objE4 ∧
    ((∀ d : Capture, getCenterFor d "-" = .ok ⟨400, -400, 400⟩) ∧
     (strHasSuf objE4.label "-0" = true →
       getCenterFor dataW "e4" = .ok objE4.center) ∧
     (strHasSuf objE4.label "-0" = false →
       getCenterFor dataW "e4" =
         .ok ⟨(objE4.center.x + objE4.high.x) / 2,
              (objE4.center.y + objE4.high.y) / 2, objE4.high.z⟩)) :=
  ⟨by decide, by decide, C7_resolver dataW "e4" objE4 (by decide) (by decide)⟩

/-! ## C6: trace structure of `movePiece` -/

/-- Every event of a grasp-loop trace is a loop event (descend, grasp,
or gripper re-open) — in particular no displacement sub-call and no
persistence access happens inside the loop. -/
theorem grabLoopFuel_events (env : Env) (x y : ℚ) :
    ∀ fuel (z : ℚ) (n g : ℕ) t n' g' r,
      grabLoopFuel env x y fuel z n g = some (t, n', g', r) →
      ∀ e ∈ t, isLoopEv e = true := by
  intro fuel
  induction fuel with
  | zero =>
    intro z n g t n' g' r hyp
    exact Option.noConfusion hyp
  | succ fuel ih =>
    intro z n g t n' g' r hyp
    by_cases hp : env.prim n = false
    · rw [grabLoopFuel_moveFail env x y fuel z n g hp] at hyp
      simp only [Option.some.injEq, Prod.mk.injEq] at hyp
      obtain ⟨rfl, -, -, -⟩ := hyp
      intro e he
      rcases List.mem_singleton.mp he with rfl
      rfl
    · have hp' := prim_true hp
      match hmg : myGrab (env.grab g) with
      | .error e0 =>
        rw [grabLoopFuel_grabErr env x y fuel z n g e0 hp' hmg] at hyp
        simp only [Option.some.injEq, Prod.mk.injEq] at hyp
        obtain ⟨rfl, -, -, -⟩ := hyp
        intro e he
        rcases List.mem_cons.mp he with rfl | he
        · rfl
        · rcases List.mem_singleton.mp he with rfl
          rfl
      | .ok true =>
        rw [grabLoopFuel_grabTrue env x y fuel z n g hp' hmg] at hyp
        simp only [Option.some.injEq, Prod.mk.injEq] at hyp
        obtain ⟨rfl, -, -, -⟩ := hyp
        intro e he
        rcases List.mem_cons.mp he with rfl | he
        · rfl
        · rcases List.mem_singleton.mp he with rfl
          rfl
      | .ok false =>
        by_cases hz10 : z - 10 < 0
        · rw [grabLoopFuel_floorStep env x y fuel z n g hp' hmg hz10] at hyp
          simp only [Option.some.injEq, Prod.mk.injEq] at hyp
          obtain ⟨rfl, -, -, -⟩ := hyp
          intro e he
          rcases List.mem_cons.mp he with rfl | he
          · rfl
          · rcases List.mem_singleton.mp he with rfl
            rfl
        · by_cases hp2 : env.prim (n + 1) = false
          · rw [grabLoopFuel_setupFail env x y fuel z n g hp' hmg hz10 hp2]
              at hyp
            simp only [Option.some.injEq, Prod.mk.injEq] at hyp
            obtain ⟨rfl, -, -, -⟩ := hyp
            intro e he
            rcases List.mem_cons.mp he with rfl | he
            · rfl
            · rcases List.mem_cons.mp he with rfl | he
              · rfl
              · rcases List.mem_singleton.mp he with rfl
                rfl
          · match hres : grabLoopFuel env x y fuel (z - 10) (n + 2) (g + 1)
                with
            | none =>
              rw [grabLoopFuel_retry_none env x y fuel z n g hp' hmg hz10
                (prim_true hp2) hres] at hyp
              exact Option.noConfusion hyp
            | some (t1, n1, g1, r1) =>
              rw [grabLoopFuel_retry env x y fuel z n g hp' hmg hz10
                (prim_true hp2) t1 n1 g1 r1 hres] at hyp
              simp only [Option.some.injEq, Prod.mk.injEq] at hyp
              obtain ⟨rfl, -, -, -⟩ := hyp
              intro e he
              rcases List.mem_cons.mp he with rfl | he
              · rfl
              · rcases List.mem_cons.mp he with rfl | he
                · rfl
                · rcases List.mem_cons.mp he with rfl | he
                  · rfl
                  · exact ih (z - 10) (n + 2) (g + 1) t1 n1 g1 r1 hres e he

/-- Loop-event version for the loop as invoked by the executor. -/
theorem grabLoop_events (env : Env) (x y z : ℚ) (n g : ℕ)
    (t : List Ev) (n' g' : ℕ) (r : Except String ℚ)
    (hyp : grabLoop env x y z n g = some (t, n', g', r)) :
    ∀ e ∈ t, isLoopEv e = true :=
  grabLoopFuel_events env x y (fuelFor z) z n g t n' g' r hyp

/-- The executor's grasp loop never returns `none`. -/
theorem grabLoop_ne_none (env : Env) (x y z : ℚ) (n g : ℕ) :
    grabLoop env x y z n g ≠ none := by
  intro h
  have hs := grabLoopFuel_isSome env x y (fuelFor z) z n g (le_refl _)
  rw [show grabLoopFuel env x y (fuelFor z) z n g = grabLoop env x y z n g
    from rfl, h] at hs
  simp at hs

/-- The pick-then-place sequence always yields a result. -/
theorem movePieceMain_isSome (env : Env) (data : Capture)
    (fromP toP : String) (n g : ℕ) :
    (movePieceMain env data fromP toP n g).isSome := by
  unfold movePieceMain
  repeat' split
  all_goals try rfl
  all_goals rename_i heq
  all_goals exact absurd heq (grabLoop_ne_none _ _ _ _ _ _)

/-- Every event of a pick-then-place trace is a loop event: the main
sequence issues no displacement sub-call and touches no file. -/
theorem movePieceMain_events (env : Env) (data : Capture)
    (fromP toP : String) (n g : ℕ) (t : List Ev) (n' g' : ℕ)
    (r : Except String Unit)
    (hyp : movePieceMain env data fromP toP n g = some (t, n', g', r)) :
    ∀ e ∈ t, isLoopEv e = true := by
  unfold movePieceMain at hyp
  repeat' split at hyp
  all_goals first
    | exact Option.noConfusion hyp
    | (simp only [Option.some.injEq, Prod.mk.injEq] at hyp
       obtain ⟨rfl, -, -, -⟩ := hyp
       intro e he
       cases e <;> try rfl
       all_goals first
         | (simp only [List.mem_cons, List.mem_append, List.mem_singleton,
              List.not_mem_nil, or_false, false_or, reduceCtorEq] at he
            exact absurd (grabLoop_events _ _ _ _ _ _ _ _ _ _ (by assumption)
              _ he) (by simp [isLoopEv]))
         | (simp only [List.mem_cons, List.mem_append, List.mem_singleton,
              List.not_mem_nil, or_false, false_or, reduceCtorEq] at he))

/-- A trace of loop events has no displacement sub-call. -/
theorem subCount_of_loopEv (t : List Ev)
    (h : ∀ e ∈ t, isLoopEv e = true) : subCount t = 0 := by
  unfold subCount
  rw [List.countP_eq_zero]
  intro e he
  have h' := h e he
  cases e <;> simp_all [isLoopEv]

/-- A `"-"` destination skips the displacement check entirely. -/
theorem movePieceF_dash (env : Env) (data : Capture) (fuel : ℕ)
    (f : String) (n g : ℕ) :
    movePieceF env data (fuel + 1) f "-" n g =
      movePieceMain env data f "-" n g := by
  simp [movePieceF]

/-- An empty destination square proceeds straight to the main
sequence. -/
theorem movePieceF_empty (env : Env) (data : Capture) (fuel : ℕ)
    (fromP toP : String) (n g : ℕ) (o : Obj) (hto : ¬ toP = "-")
    (hfind : findObject data toP = some o)
    (hemp : strHasSuf o.label "-0" = true) :
    movePieceF env data (fuel + 1) fromP toP n g =
      movePieceMain env data fromP toP n g := by
  simp [movePieceF, hto, hfind, hemp]

/-- An occupied destination square first runs the recursive displacement
sub-move to the discard location. -/
theorem movePieceF_occupied (env : Env) (data : Capture) (fuel : ℕ)
    (fromP toP : String) (n g : ℕ) (o : Obj) (hto : ¬ toP = "-")
    (hfind : findObject data toP = some o)
    (hocc : strHasSuf o.label "-0" = false) :
    movePieceF env data (fuel + 1) fromP toP n g =
      match movePieceF env data fuel toP "-" n g with
      | none => none
      | some (t1, n1, g1, .error e) =>
          some (.subCall toP "-" :: t1, n1, g1,
                .error ("cant move piece out of the way: " ++ e))
      | some (t1, n1, g1, .ok _) =>
        match movePieceMain env data fromP toP n1 g1 with
        | none => none
        | some (t2, n2, g2, r) =>
            some (.subCall toP "-" :: t1 ++ t2, n2, g2, r) := by
  simp only [movePieceF, if_neg hto, hfind, hocc, Bool.false_eq_true,
    if_false]

/-- C6: when the destination square of a `movePiece` call (with a real
destination) is occupied, the trace starts with exactly one displacement
sub-call `movePiece(data, to, "-")` whose own trace contains no further
sub-call (the `"-"` destination skips the occupancy check), followed by
the sub-move's trace and then the sub-call-free main pick-then-place
sequence; when the destination is empty, the whole trace contains no
displacement sub-call at all. -/
theorem C6_displacement (env : Env) (data : Capture) (fromP toP : String)
    (n g : ℕ) (o : Obj) (hto : toP ≠ "-")
    (hfind : findObject data toP = some o) :
    (strHasSuf o.label "-0" = true →
      subCount (mpTrace env data fromP toP n g) = 0) ∧
    (strHasSuf o.label "-0" = false →
      ∃ rest, mpTrace env data fromP toP n g =
          Ev.subCall toP "-" :: mpTrace env data toP "-" n g ++ rest ∧
        subCount (mpTrace env data toP "-" n g) = 0 ∧
        subCount rest = 0) := by
  obtain ⟨⟨t1, n1, g1, r1⟩, h1⟩ :=
    Option.isSome_iff_exists.mp (movePieceMain_isSome env data toP "-" n g)
  have hsubtrace : mpTrace env data toP "-" n g = t1 := by
    unfold mpTrace movePieceGo
    rw [movePieceF_dash env data 1 toP n g, h1]
    rfl
  have hsub0 : subCount t1 = 0 :=
    subCount_of_loopEv t1 (movePieceMain_events env data toP "-" n g
      t1 n1 g1 r1 h1)
  constructor
  · intro hemp
    unfold mpTrace movePieceGo
    rw [movePieceF_empty env data 1 fromP toP n g o hto hfind hemp]
    obtain ⟨⟨t2, n2, g2, r2⟩, h2⟩ := Option.isSome_iff_exists.mp
      (movePieceMain_isSome env data fromP toP n g)
    rw [h2]
    exact subCount_of_loopEv t2
      (movePieceMain_events env data fromP toP n g t2 n2 g2 r2 h2)
  · intro hocc
    rw [hsubtrace]
    unfold mpTrace movePieceGo
    rw [movePieceF_occupied env data 1 fromP toP n g o hto hfind hocc,
      movePieceF_dash env data 0 toP n g, h1]
    match r1 with
    | .error e =>
      exact ⟨[], by simp, hsub0, rfl⟩
    | .ok u =>
      obtain ⟨⟨t2, n2, g2, r2⟩, h2⟩ := Option.isSome_iff_exists.mp
        (movePieceMain_isSome env data fromP toP n1 g1)
      exact ⟨t2, by simp [h2], hsub0,
        subCount_of_loopEv t2
          (movePieceMain_events env data fromP toP n1 g1 t2 n2 g2 r2 h2)⟩

/-- C6 witness: moving `e2 → e4` in the sample capture, where `e4` is
occupied. -/
theorem C6_witness :
    ("e4" : String) ≠ "-" ∧ findObject dataW "e4" = some objE4 ∧
    ((strHasSuf objE4.label "-0" = true →
       subCount (mpTrace envOk dataW "e2" "e4" 0 0) = 0) ∧
     (strHasSuf objE4.label "-0" = false →
       ∃ rest, mpTrace envOk dataW "e2" "e4" 0 0 =
           Ev.subCall "e4" "-" :: mpTrace envOk dataW "e4" "-" 0 0 ++ rest ∧
         subCount (mpTrace envOk dataW "e4" "-" 0 0) = 0 ∧
         subCount rest = 0)) :=
  ⟨by decide, by decide,
   C6_displacement envOk dataW "e2" "e4" 0 0 objE4 (by decide) (by decide)⟩

/-- The displacement-recursion fuel of 2 is never exhausted: a real
`movePiece` call always yields a result, because the sub-move's `"-"`
destination never triggers another displacement. -/
theorem movePieceGo_isSome (env : Env) (data : Capture) (f toQ : String)
    (n g : ℕ) : (movePieceGo env data f toQ n g).isSome := by
  unfold movePieceGo
  by_cases hto : toQ = "-"
  · subst hto
    rw [show movePieceF env data 2 f "-" n g =
      movePieceMain env data f "-" n g from movePieceF_dash env data 1 f n g]
    exact movePieceMain_isSome env data f "-" n g
  · match hfind : findObject data toQ with
    | none =>
      rw [show movePieceF env data 2 f toQ n g =
          some ([], n, g, .error ("cant find object for: " ++ toQ)) by
        simp [movePieceF, hto, hfind]]
      rfl
    | some o =>
      by_cases hemp : strHasSuf o.label "-0" = true
      · rw [movePieceF_empty env data 1 f toQ n g o hto hfind hemp]
        exact movePieceMain_isSome env data f toQ n g
      · rw [movePieceF_occupied env data 1 f toQ n g o hto hfind
          (Bool.eq_false_iff.mpr hemp)]
        obtain ⟨⟨t1, n1, g1, r1⟩, h1⟩ := Option.isSome_iff_exists.mp
          (movePieceMain_isSome env data toQ "-" n g)
        rw [movePieceF_dash env data 0 toQ n g, h1]
        match r1 with
        | .error e => rfl
        | .ok u =>
          obtain ⟨⟨t2, n2, g2, r2⟩, h2⟩ := Option.isSome_iff_exists.mp
            (movePieceMain_isSome env data f toQ n1 g1)
          simp [h2]

/-! ## C8: game persistence -/

/-- C8: `getGame` on a missing store returns the canonical starting game
and no error; a store that is present but unreadable, or whose content
does not parse as a position, yields an error — never a fallback to a
default position; a parseable store yields exactly the stored game. -/
theorem C8_persistence (env : Env) (s : String) (gm : Game) :
    (getGame env .missing = ([.fileRead], .ok startGame)) ∧
    (getGame env .readErr = ([.fileRead], .error "error reading fen")) ∧
    (env.fenParse s = none →
      getGame env (.content s) =
        ([.fileRead], .error ("invalid fen from: " ++ s))) ∧
    (env.fenParse s = some gm →
      getGame env (.content s) = ([.fileRead], .ok gm)) := by
  refine ⟨rfl, rfl, ?_, ?_⟩ <;> intro h <;> simp [getGame, h]

/-- C8 witness: the missing-store and unparseable-store cases under an
environment whose parser rejects everything. -/
theorem C8_witness :
    getGame envW5 .missing = ([.fileRead], .ok startGame) ∧
      envW5.fenParse "xx" = none ∧
      getGame envW5 (.content "xx") =
        ([.fileRead], .error "invalid fen from: xx") :=
  ⟨(C8_persistence envW5 "xx" startGame).1, rfl,
   (C8_persistence envW5 "xx" startGame).2.2.1 rfl⟩

/-! ## C9: the mandatory homing finalizer -/

/-- `DoCommand` is its body followed by the deferred homing call, whose
outcome is discarded. -/
theorem DoCommand_decomp (env : Env) (dec : DecodeRes) (n g c : ℕ)
    (fs : FileSt) :
    DoCommand env dec n g c fs =
      ((doCommandBody env dec n g c fs).1 ++
         (goToStart env (doCommandBody env dec n g c fs).2.1).1,
       (goToStart env (doCommandBody env dec n g c fs).2.1).2.1,
       (doCommandBody env dec n g c fs).2.2.1,
       (doCommandBody env dec n g c fs).2.2.2.1,
       (doCommandBody env dec n g c fs).2.2.2.2.1,
       (doCommandBody env dec n g c fs).2.2.2.2.2) := rfl

/-- C9: on every exit path of `DoCommand` — success, failure, or a
malformed command — the trace is the body's trace followed by the homing
sequence (which always begins with the staging-pose switch), and the
returned result is exactly the body's result, so a failure of the homing
finalizer never replaces or suppresses it. -/
theorem C9_homing_finalizer (env : Env) (dec : DecodeRes) (n g c : ℕ)
    (fs : FileSt) :
    (DoCommand env dec n g c fs).1 =
      (doCommandBody env dec n g c fs).1 ++
        (goToStart env (doCommandBody env dec n g c fs).2.1).1 ∧
    (DoCommand env dec n g c fs).2.2.2.2.2 =
      (doCommandBody env dec n g c fs).2.2.2.2.2 ∧
    (goToStart env (doCommandBody env dec n g c fs).2.1).1.head? =
      some Ev.setPosition := by
  refine ⟨?_, ?_, ?_⟩
  · rw [DoCommand_decomp]
  · rw [DoCommand_decomp]
  · unfold goToStart
    split_ifs <;> rfl

/-! ## C10: manual moves never touch the persisted position -/

/-- Loop events are not persistence events. -/
theorem loopEv_not_file {e : Ev} (h : isLoopEv e = true) :
    isFileEv e = false := by
  cases e <;> simp_all [isLoopEv, isFileEv]

/-- A trace of file-free events has no persistence event. -/
theorem fileCount_zero_of (t : List Ev)
    (h : ∀ e ∈ t, isFileEv e = false) : fileCount t = 0 := by
  unfold fileCount
  rw [List.countP_eq_zero]
  intro e he
  simp [h e he]

/-- The homing sequence touches no file. -/
theorem goToStart_noFile (env : Env) (n : ℕ) :
    ∀ e ∈ (goToStart env n).1, isFileEv e = false := by
  unfold goToStart
  split_ifs <;> intro e he <;> cases e <;> simp_all [isFileEv]

/-- Restated `goToStart_noFile` against an explicit result tuple. -/
theorem goToStart_noFile2 {env : Env} {n : ℕ} {t0 : List Ev} {n0 : ℕ}
    {r0 : Except String Unit} (h : goToStart env n = (t0, n0, r0)) :
    ∀ e ∈ t0, isFileEv e = false := by
  intro e he
  exact goToStart_noFile env n e (by rw [h]; exact he)

/-- A `movePiece` trace touches no file. -/
theorem movePieceF_noFile (env : Env) (data : Capture) :
    ∀ fuel (f toQ : String) (n g : ℕ) t n' g' r,
      movePieceF env data fuel f toQ n g = some (t, n', g', r) →
      ∀ e ∈ t, isFileEv e = false := by
  intro fuel
  induction fuel with
  | zero =>
    intro f toQ n g t n' g' r hyp
    exact Option.noConfusion hyp
  | succ fuel ih =>
    intro f toQ n g t n' g' r hyp
    by_cases hto : toQ = "-"
    · subst hto
      rw [movePieceF_dash] at hyp
      intro e he
      exact loopEv_not_file
        (movePieceMain_events env data f "-" n g t n' g' r hyp e he)
    · match hfind : findObject data toQ with
      | none =>
        rw [show movePieceF env data (fuel + 1) f toQ n g =
            some ([], n, g, .error ("cant find object for: " ++ toQ)) by
          simp [movePieceF, hto, hfind]] at hyp
        simp only [Option.some.injEq, Prod.mk.injEq] at hyp
        obtain ⟨rfl, -, -, -⟩ := hyp
        intro e he
        exact absurd he (List.not_mem_nil e)
      | some o =>
        by_cases hemp : strHasSuf o.label "-0" = true
        · rw [movePieceF_empty env data fuel f toQ n g o hto hfind hemp]
            at hyp
          intro e he
          exact loopEv_not_file
            (movePieceMain_events env data f toQ n g t n' g' r hyp e he)
        · rw [movePieceF_occupied env data fuel f toQ n g o hto hfind
            (Bool.eq_false_iff.mpr hemp)] at hyp
          match hres : movePieceF env data fuel toQ "-" n g with
          | none =>
            rw [hres] at hyp
            exact Option.noConfusion hyp
          | some (t1, n1, g1, .error e0) =>
            rw [hres] at hyp
            simp only [Option.some.injEq, Prod.mk.injEq] at hyp
            obtain ⟨rfl, -, -, -⟩ := hyp
            intro e he
            rcases List.mem_cons.mp he with rfl | he
            · rfl
            · exact ih toQ "-" n g t1 n1 g1 (.error e0) hres e he
          | some (t1, n1, g1, .ok u) =>
            rw [hres] at hyp
            match hmain : movePieceMain env data f toQ n1 g1 with
            | none =>
              simp only [hmain] at hyp
              exact Option.noConfusion hyp
            | some (t2, n2, g2, r2) =>
              simp only [hmain, Option.some.injEq, Prod.mk.injEq] at hyp
              obtain ⟨rfl, -, -, -⟩ := hyp
              intro e he
              rcases List.mem_cons.mp he with rfl | he
              · rfl
              · rcases List.mem_append.mp he with he | he
                · exact ih toQ "-" n g t1 n1 g1 (.ok u) hres e he
                · exact loopEv_not_file (movePieceMain_events env data f toQ
                    n1 g1 t2 n2 g2 r2 hmain e he)

/-- Restated `movePieceF_noFile` for the executor entry point. -/
theorem movePieceGo_noFile {env : Env} {data : Capture} {f toQ : String}
    {n g : ℕ} {t : List Ev} {n' g' : ℕ} {r : Except String Unit}
    (h : movePieceGo env data f toQ n g = some (t, n', g', r)) :
    ∀ e ∈ t, isFileEv e = false :=
  movePieceF_noFile env data 2 f toQ n g t n' g' r h

/-- The manual-move loop touches no file. -/
theorem manualLoop_noFile (env : Env) (fromSq toSq : String) :
    ∀ k (x n g c : ℕ) t n' g' c' r,
      manualLoop env fromSq toSq x k n g c = (t, n', g', c', r) →
      ∀ e ∈ t, isFileEv e = false := by
  intro k
  induction k with
  | zero =>
    intro x n g c t n' g' c' r hyp
    simp only [manualLoop, Prod.mk.injEq] at hyp
    obtain ⟨rfl, -, -, -, -⟩ := hyp
    intro e he
    exact absurd he (List.not_mem_nil e)
  | succ k ih =>
    intro x n g c t n' g' c' r hyp
    rw [manualLoop] at hyp
    match hgs : goToStart env n with
    | (t0, n0, .error e0) =>
      simp only [hgs, Prod.mk.injEq] at hyp
      obtain ⟨rfl, -, -, -, -⟩ := hyp
      exact goToStart_noFile2 hgs
    | (t0, n0, .ok u) =>
      simp only [hgs] at hyp
      match hcap : env.capture c with
      | none =>
        simp only [hcap, Prod.mk.injEq] at hyp
        obtain ⟨rfl, -, -, -, -⟩ := hyp
        intro e he
        rcases List.mem_append.mp he with he | he
        · exact goToStart_noFile2 hgs e he
        · rcases List.mem_singleton.mp he with rfl
          rfl
      | some data =>
        simp only [hcap] at hyp
        match hmp : movePieceGo env data
            (if x % 2 = 1 then toSq else fromSq)
            (if x % 2 = 1 then fromSq else toSq) n0 g with
        | none =>
          simp only [hmp, Prod.mk.injEq] at hyp
          obtain ⟨rfl, -, -, -, -⟩ := hyp
          intro e he
          rcases List.mem_append.mp he with he | he
          · exact goToStart_noFile2 hgs e he
          · rcases List.mem_singleton.mp he with rfl
            rfl
        | some (tm, n1, g1, .error e0) =>
          simp only [hmp, Prod.mk.injEq] at hyp
          obtain ⟨rfl, -, -, -, -⟩ := hyp
          intro e he
          rcases List.mem_append.mp he with he | he
          · rcases List.mem_append.mp he with he | he
            · exact goToStart_noFile2 hgs e he
            · rcases List.mem_singleton.mp he with rfl
              rfl
          · exact movePieceGo_noFile hmp e he
        | some (tm, n1, g1, .ok u2) =>
          simp only [hmp] at hyp
          rcases hrec : manualLoop env fromSq toSq (x + 1) k n1 g1 (c + 1)
            with ⟨t2, n2, g2, c2, r2⟩
          simp only [hrec, Prod.mk.injEq] at hyp
          obtain ⟨rfl, -, -, -, -⟩ := hyp
          intro e he
          rcases List.mem_append.mp he with he | he
          · rcases List.mem_append.mp he with he | he
            · rcases List.mem_append.mp he with he | he
              · exact goToStart_noFile2 hgs e he
              · rcases List.mem_singleton.mp he with rfl
                rfl
            · exact movePieceGo_noFile hmp e he
          · exact ih (x + 1) n1 g1 (c + 1) t2 n2 g2 c2 r2 hrec e he

/-- C10: a manual-move invocation of `DoCommand` (decoded command with
both squares set) neither reads nor writes the persisted position: its
trace contains no persistence event and the file state is returned
unchanged, whatever the drivers do. -/
theorem C10_manual_no_persistence (env : Env) (cmd : CmdStruct)
    (n g c : ℕ) (fs : FileSt) (h1 : cmd.move.toSq ≠ "")
    (h2 : cmd.move.fromSq ≠ "") :
    fileCount (DoCommand env (.ok cmd) n g c fs).1 = 0 ∧
    (DoCommand env (.ok cmd) n g c fs).2.2.2.2.1 = fs := by
  rcases hml : manualLoop env cmd.move.fromSq cmd.move.toSq 0
      cmd.move.rep.toNat n g c with ⟨t, n1, g1, c1, r⟩
  have hb1 : (doCommandBody env (.ok cmd) n g c fs).1 = t := by
    simp only [doCommandBody,
      if_pos (show cmd.move.toSq ≠ "" ∧ cmd.move.fromSq ≠ "" from ⟨h1, h2⟩),
      hml]
    match r with
    | .error e => rfl
    | .ok u => rfl
  have hb2 : (doCommandBody env (.ok cmd) n g c fs).2.1 = n1 := by
    simp only [doCommandBody,
      if_pos (show cmd.move.toSq ≠ "" ∧ cmd.move.fromSq ≠ "" from ⟨h1, h2⟩),
      hml]
    match r with
    | .error e => rfl
    | .ok u => rfl
  have hb5 : (doCommandBody env (.ok cmd) n g c fs).2.2.2.2.1 = fs := by
    simp only [doCommandBody,
      if_pos (show cmd.move.toSq ≠ "" ∧ cmd.move.fromSq ≠ "" from ⟨h1, h2⟩),
      hml]
    match r with
    | .error e => rfl
    | .ok u => rfl
  constructor
  · rw [DoCommand_decomp]
    show fileCount ((doCommandBody env (.ok cmd) n g c fs).1 ++
      (goToStart env (doCommandBody env (.ok cmd) n g c fs).2.1).1) = 0
    rw [hb1, hb2]
    unfold fileCount
    rw [List.countP_append,
      show t.countP isFileEv = 0 from fileCount_zero_of t
        (manualLoop_noFile env cmd.move.fromSq cmd.move.toSq
          cmd.move.rep.toNat 0 n g c t n1 g1 c1 r hml),
      show (goToStart env n1).1.countP isFileEv = 0 from
        fileCount_zero_of _ (goToStart_noFile env n1)]
  · rw [DoCommand_decomp]
    exact hb5

/-- C10 witness: the concrete manual command `e2 ↔ e4` once, over the
sample capture environment. -/
theorem C10_witness :
    cmdW.move.toSq ≠ "" ∧ cmdW.move.fromSq ≠ "" ∧
    (fileCount (DoCommand envOk (.ok cmdW) 0 0 0 .missing).1 = 0 ∧
     (DoCommand envOk (.ok cmdW) 0 0 0 .missing).2.2.2.2.1 = .missing) :=
  ⟨by decide, by decide,
   C10_manual_no_persistence envOk cmdW 0 0 0 .missing (by decide)
     (by decide)⟩

/-! ## C2: castling rejection in `makeAMove` -/

/-- The homing trace contains no move-execution event. -/
theorem goToStart_noExec (env : Env) (n : ℕ) :
    (goToStart env n).1.countP isExecEv = 0 := by
  unfold goToStart
  split_ifs <;> simp [List.countP_cons, List.countP_nil, isExecEv]

/-- The move-selection trace contains no move-execution event. -/
theorem pickMove_noExec (env : Env) (gm : Game) :
    (pickMove env gm).1.countP isExecEv = 0 := by
  unfold pickMove
  repeat' split
  all_goals simp [List.countP_cons, List.countP_nil, isExecEv]

/-- C2 (amended): when every move the selector can return is tagged as
castling, `makeAMove` always fails, and its trace contains no
move-execution event — no snapshot capture, no arm motion, no gripper
command, no grasp, no displacement — though the initial homing sequence
(staging-pose switch, gripper open, pose query) and the position load do
precede the rejection. -/
theorem C2_castle_rejected (env : Env) (n g c : ℕ) (fs : FileSt)
    (hcastle : ∀ gm m, (pickMove env gm).2 = Except.ok m →
      isCastle m = true) :
    (makeAMove env n g c fs).1.countP isExecEv = 0 ∧
    ∃ e, (makeAMove env n g c fs).2.2.2.2.2 = .error e := by
  unfold makeAMove
  match hgs : goToStart env n with
  | (t0, n0, .error e0) =>
    simp only [hgs]
    refine ⟨?_, ⟨_, rfl⟩⟩
    have := goToStart_noExec env n
    rw [hgs] at this
    exact this
  | (t0, n0, .ok u) =>
    simp only [hgs]
    have ht0 : t0.countP isExecEv = 0 := by
      have := goToStart_noExec env n
      rw [hgs] at this
      exact this
    rw [show getGame env fs = ([Ev.fileRead], (getGame env fs).2) from rfl]
    match hgg : (getGame env fs).2 with
    | .error e0 =>
      simp only [hgg]
      refine ⟨?_, ⟨_, rfl⟩⟩
      simp [List.countP_append, List.countP_cons, List.countP_nil,
        isExecEv, ht0]
    | .ok game =>
      simp only [hgg]
      rw [show pickMove env game =
        ((pickMove env game).1, (pickMove env game).2) from rfl]
      have htp : (pickMove env game).1.countP isExecEv = 0 :=
        pickMove_noExec env game
      match hpm : (pickMove env game).2 with
      | .error e0 =>
        simp only [hpm]
        refine ⟨?_, ⟨_, rfl⟩⟩
        simp [List.countP_append, List.countP_cons, List.countP_nil,
          isExecEv, ht0, htp]
      | .ok m =>
        have hc : isCastle m = true := hcastle game m hpm
        simp only [hpm, hc, if_true]
        refine ⟨?_, ⟨_, rfl⟩⟩
        simp [List.countP_append, List.countP_cons, List.countP_nil,
          isExecEv, ht0, htp]

/-- C2 counterexample: with everything healthy and an engine that
proposes a king-side castle, `makeAMove` does reject the move — but the
gripper-open call of the initial homing sequence has already been issued
in the same invocation, so the rejection does not precede EVERY
ManipulatorDriver/GripperDriver call. -/
theorem C2_counterexample :
    (makeAMove envC2 0 0 0 .missing).2.2.2.2.2 =
      .error "cant handle castle" ∧
    Ev.gripperOpen ∈ (makeAMove envC2 0 0 0 .missing).1 := by
  constructor <;> decide

/-- C2 witness: the amended statement at the concrete always-castling
environment. -/
theorem C2_witness :
    (∀ gm m, (pickMove envC2 gm).2 = Except.ok m → isCastle m = true) ∧
    ((makeAMove envC2 0 0 0 .missing).1.countP isExecEv = 0 ∧
     ∃ e, (makeAMove envC2 0 0 0 .missing).2.2.2.2.2 = .error e) :=
  have h : ∀ gm m, (pickMove envC2 gm).2 = Except.ok m →
      isCastle m = true := by
    intro gm m hm
    have hmc : mCastle = m := by
      simpa [pickMove, envC2, envOk, envW5] using hm
    rw [← hmc]
    decide
  ⟨h, C2_castle_rejected envC2 0 0 0 .missing h⟩

end ViamChess